import Mathlib

/-!
Verification of the session/response orchestration core of
`fastchat/serve/gradio_web_server.py`.

The Python source is shallowly embedded below: pure functions become Lean
functions, the mutable `State` object becomes explicit state passing, the
streaming generator `bot_response` becomes a fold over the observed sequence
of stream events, and the external collaborators (moderation classifier,
rate-limit oracle, worker discovery, the upstream chunk stream) become
explicit parameters.  Python strings are modelled through their code-point
sequences (`String.data`), which is exactly the granularity at which Python
slices and compares them.
-/

namespace GradioWebServer

/-- Python slicing `s[:n]`: the first `n` characters (code points) of `s`. -/
def strTake (s : String) (n : Nat) : String := ⟨s.data.take n⟩

/-- Python slicing `s[-n:]`: the last `n` characters of `s`
(all of `s` when `len(s) ≤ n`). -/
def strTakeLast (s : String) (n : Nat) : String :=
  ⟨s.data.drop (s.data.length - n)⟩

/-- Python `str.strip()`: remove whitespace from both ends. -/
def pyStrip (s : String) : String :=
  ⟨((s.data.dropWhile Char.isWhitespace).reverse.dropWhile Char.isWhitespace).reverse⟩

/-- Python `needle in hay` on strings: contiguous substring test. -/
def containsSub (hay needle : String) : Bool :=
  (List.range (hay.data.length + 1)).any fun i =>
    (hay.data.drop i).take needle.data.length == needle.data

/-- One entry of `Conversation.messages`: a role label and the message
content, where `none` models Python's `None` ("awaiting generation"
placeholder). -/
structure Message where
  role : String
  content : Option String
deriving Repr, DecidableEq

/-- The part of `fastchat.conversation.Conversation` that
`gradio_web_server.py` reads and writes: system message, the two role
labels (`conv.roles[0]`, `conv.roles[1]`), the offset of the frozen
exemplar prefix, and the message list. -/
structure Conv where
  systemMessage : String
  roles : String × String
  offset : Nat
  messages : List Message
deriving Repr, DecidableEq

/-- Modelled from the spec: `Conversation.get_prompt` lives in
`fastchat/model/conversation.py`, which is not under `src/`.  Spec section 4.1:
it "deterministically linearizes system prompt + all messages from `offset`
onward using role labels ..., excluding any trailing null-content
placeholder's label-only stub", and an empty system prompt is omitted
entirely (an empty initial accumulator contributes nothing). -/
def Conv.getPrompt (c : Conv) : String :=
  (c.messages.drop c.offset).foldl
    (fun acc m =>
      match m.content with
      | some s => acc ++ "\n" ++ m.role ++ ": " ++ s
      | none => acc)
    c.systemMessage

/-- `Conversation.append_message(role, message)`. -/
def Conv.appendMessage (c : Conv) (role : String) (content : Option String) : Conv :=
  { c with messages := c.messages ++ [⟨role, content⟩] }

/-- `Conversation.update_last_message(message)`: replace the content of the
most recent message.  Python indexes `messages[-1]` and would raise on an
empty history; every call site in the embedded code guarantees a non-empty
message list, so the identity branch for `[]` is unreachable. -/
def Conv.updateLastMessage (c : Conv) (content : Option String) : Conv :=
  match c.messages.getLast? with
  | none => c
  | some m => { c with messages := c.messages.dropLast ++ [{ m with content := content }] }

/-- The content of the most recent message, when one exists. -/
def Conv.lastContent (c : Conv) : Option (Option String) :=
  c.messages.getLast?.map Message.content

/-- Modelled from the spec: the policy constants imported from
`fastchat.constants`, which is not under `src/`.  The spec calls them
"configured"/"fixed" messages and limits without giving their values, so
they are carried as parameters of the embedding. -/
structure Consts where
  CONVERSATION_TURN_LIMIT : Nat
  INPUT_CHAR_LEN_LIMIT : Nat
  MODERATION_MSG : String
  CONVERSATION_LIMIT_MSG : String
  RATE_LIMIT_MSG : String
  SERVER_ERROR_MSG : String
  GRADIO_REQUEST_ERROR : Nat
  GRADIO_STREAM_UNKNOWN_ERROR : Nat
deriving Repr, DecidableEq

/-- The fields of `gradio_web_server.State` that the embedded operations
read or write.  `conv_id` (a random uuid), `oai_thread_id`, `is_vision`
(fixed `False` for this single-model server) and `router_outputs`
(floating-point payloads) are carried by no claim and are omitted. -/
structure State where
  conv : Conv
  skip_next : Bool
  model_name : String
  ans_models : List String
  has_csam_image : Bool
  regen_support : Bool
deriving Repr, DecidableEq

/-- `State.__init__(model_name)`.  `conv0` stands for
`get_conversation_template(model_name)` after `init_system_prompt`'s
current-date substitution (wall-clock dates are environment input, so the
already-substituted template is taken as a parameter).  `regen_support`
is false exactly when `"browsing"` occurs in the model name. -/
def State.create (conv0 : Conv) (model_name : String) : State :=
  { conv := conv0
    skip_next := false
    model_name := model_name
    ans_models := []
    has_csam_image := false
    regen_support := !containsSub model_name "browsing" }

/-- `regenerate(state, request)`: without regeneration support it sets
`skip_next` and returns; otherwise it clears the last message back to
`None`.  Logging and the UI tuple are dropped; both are functions of the
returned state. -/
def regenerate (state : State) : State :=
  if !state.regen_support then
    { state with skip_next := true }
  else
    { state with conv := state.conv.updateLastMessage none }

/-- The state/textbox pair returned by `add_text` (the chatbot rendering and
button updates are functions of the state). -/
structure AddTextResult where
  state : State
  textbox : String
deriving Repr, DecidableEq

/-- `add_text(state, model_selector, text, request)`.  `moderation` stands
for the external `moderation_filter(text, model_list)` predicate (spec
section 6) and `conv0` for the fresh conversation template used when
`state is None`. -/
def add_text (C : Consts) (moderation : String → List String → Bool)
    (conv0 : Conv) (state? : Option State) (model_selector : String)
    (text : String) : AddTextResult :=
  let state := match state? with
    | none => State.create conv0 model_selector
    | some s => s
  if text.length ≤ 0 then
    { state := { state with skip_next := true }, textbox := "" }
  else
    let all_conv_text := strTakeLast state.conv.getPrompt 2000 ++ "\nuser: " ++ text
    let flagged := moderation all_conv_text [state.model_name]
    let text := if flagged then C.MODERATION_MSG else text
    if C.CONVERSATION_TURN_LIMIT ≤ (state.conv.messages.length - state.conv.offset) / 2 then
      { state := { state with skip_next := true }, textbox := C.CONVERSATION_LIMIT_MSG }
    else
      let text := strTake text C.INPUT_CHAR_LEN_LIMIT
      let conv := (state.conv.appendMessage state.conv.roles.1 (some text)).appendMessage
        state.conv.roles.2 none
      { state := { state with conv := conv }, textbox := "" }

/-- One event observed by the streaming loop of `bot_response`: either a
decoded JSON chunk from the worker/provider stream iterator (its `text`,
`error_code` and optional `ans_model` fields), or the point at which
iteration raises — `requests.exceptions.RequestException` when `transport`
is true, any other exception otherwise, carrying the exception's rendered
text. -/
inductive StreamItem where
  | chunk (text : String) (error_code : Nat) (ans_model : Option String)
  | fail (transport : Bool) (msg : String)
deriving Repr, DecidableEq

/-- Whether the stream runs to exhaustion with every chunk reporting
`error_code == 0`, i.e. whether the `for` loop of `bot_response` falls
through to its epilogue. -/
def streamOk : List StreamItem → Bool
  | [] => true
  | .chunk _ ec _ :: rest => if ec == 0 then streamOk rest else false
  | .fail _ _ :: _ => false

/-- Result of the streaming loop: the state after folding the events,
the number of UI updates yielded by the loop (including the final one),
and whether control falls through to the transcript-writing epilogue. -/
structure StreamResult where
  state : State
  yields : Nat
  ok : Bool
deriving Repr, DecidableEq

/-- The `try: for i, data in enumerate(stream_iter): ...` loop of
`bot_response` together with its two exception handlers and the
post-loop finalization.  `i` is the enumeration index (the first chunk's
`ans_model` payload is recorded once), `lastText` carries `data["text"]`
of the most recent chunk (initially `""`, from `data = model with text empty`),
and `yields` counts UI updates emitted so far. -/
def streamLoop (C : Consts) (st : State) (items : List StreamItem)
    (i : Nat) (lastText : String) (yields : Nat) : StreamResult :=
  match items with
  | [] =>
    { state := { st with conv := st.conv.updateLastMessage (some (pyStrip lastText)) }
      yields := yields + 1
      ok := true }
  | .chunk text errorCode ansModel :: rest =>
    let st := if i == 0 then
        match ansModel with
        | some a => { st with ans_models := st.ans_models ++ [a] }
        | none => st
      else st
    if errorCode == 0 then
      let output := pyStrip text
      let st := { st with conv := st.conv.updateLastMessage (some (output ++ "▌")) }
      streamLoop C st rest (i + 1) text (yields + 1)
    else
      let output := C.SERVER_ERROR_MSG ++ "\n\n" ++ text ++
        "\n\n(error_code: " ++ toString errorCode ++ ")"
      { state := { st with conv := st.conv.updateLastMessage (some output) }
        yields := yields + 1
        ok := false }
  | .fail transport msg :: _ =>
    let code := if transport then C.GRADIO_REQUEST_ERROR else C.GRADIO_STREAM_UNKNOWN_ERROR
    let output := C.SERVER_ERROR_MSG ++ "\n\n(error_code: " ++ toString code ++ ", " ++ msg ++ ")"
    { state := { st with conv := st.conv.updateLastMessage (some output) }
      yields := yields + 1
      ok := false }

/-- `if ret is not None and ret["is_limit_reached"]` applied under
`if apply_rate_limit`: whether the rate-limit branch fires. -/
def rateLimitHit (apply_rate_limit : Bool) (rateLimit : Option (Bool × String)) : Bool :=
  apply_rate_limit &&
    match rateLimit with
    | some (true, _) => true
    | _ => false

/-- The transient cursor marker written into the placeholder before
streaming starts. -/
def html_code : String := " <span class=\"cursor\"></span> "

/-- Observable outcome of one `bot_response` generator run: the final
state, the number of UI updates yielded, whether any backend stream was
requested, and the number of transcript records appended to the
conversation log file. -/
structure BotResult where
  state : State
  yields : Nat
  backendContacted : Bool
  records : Nat
deriving Repr, DecidableEq

/-- `bot_response(state, temperature, top_p, max_new_tokens, request,
apply_rate_limit, use_recommended_config)`.  The collaborators appear as
explicit inputs: `rateLimit` is the JSON answer of the rate-limit oracle
(`none` when the monitor call raised and was swallowed), `isApiModel` is
`model_name in api_endpoint_info`, `customSystemPrompt` the entry's
`custom_system_prompt` flag, `workerAddr` the controller's
`get_worker_address` answer, and `stream` the observed event sequence.
The float generation parameters and the `use_recommended_config`
overrides affect no modelled observable and are omitted. -/
def bot_response (C : Consts) (apply_rate_limit : Bool)
    (rateLimit : Option (Bool × String)) (isApiModel : Bool)
    (customSystemPrompt : Bool) (workerAddr : String)
    (stream : List StreamItem) (state : State) : BotResult :=
  if state.skip_next then
    { state := { state with skip_next := false }
      yields := 1
      backendContacted := false
      records := 0 }
  else if rateLimitHit apply_rate_limit rateLimit then
    let reason := match rateLimit with
      | some (_, r) => r
      | none => ""
    let error_msg := C.RATE_LIMIT_MSG ++ "\n\n" ++ reason
    { state := { state with conv := state.conv.updateLastMessage (some error_msg) }
      yields := 1
      backendContacted := false
      records := 0 }
  else if !isApiModel && workerAddr == "" then
    { state := { state with conv := state.conv.updateLastMessage (some C.SERVER_ERROR_MSG) }
      yields := 1
      backendContacted := false
      records := 0 }
  else
    let state := if isApiModel && !customSystemPrompt then
        { state with conv := { state.conv with systemMessage := "" } }
      else state
    let state := { state with conv := state.conv.updateLastMessage (some html_code) }
    let r := streamLoop C state stream 0 "" 1
    { state := r.state
      yields := r.yields
      backendContacted := true
      records := if r.ok then 1 else 0 }

/-- The numeric part of the sort sentinel `f"___{i:03d}"`: `str(i)`
left-padded with `'0'` to width 3. -/
def pad3 (i : Nat) : String :=
  let s := Nat.repr i
  ⟨List.replicate (3 - s.data.length) '0' ++ s.data⟩

/-- The rank of `x` in the curated ordering table: the position of `x`
among the keys of `model_info` in `enumerate` order.  `model_info` lives
in `fastchat/model/model_registry.py`, which is not under `src/`, so the
key list is a parameter. -/
def rankOf (ranked : List String) (x : String) : Option Nat :=
  ranked.findIdx? (fun k => k == x)

/-- `priority.get(x, x)` for `priority = dict with key k mapped to "___" plus
zero-padded rank`. -/
def priorityKey (ranked : List String) (x : String) : String :=
  match rankOf ranked x with
  | some i => "___" ++ pad3 i
  | none => x

/-- Python string comparison: code-point lexicographic order on the
character sequences. -/
def charsLe : List Char → List Char → Bool
  | [], _ => true
  | _ :: _, [] => false
  | a :: as, b :: bs =>
    if a.toNat < b.toNat then true
    else if b.toNat < a.toNat then false
    else charsLe as bs

/-- Python `s <= t` on strings. -/
def strLe (a b : String) : Bool := charsLe a.data b.data

/-- `models.sort(key=lambda x: priority.get(x, x))`: a stable comparison
sort by the priority key (no claim depends on the order of exact key
ties, so a stable insertion sort stands in for Timsort). -/
def sortModels (ranked : List String) (models : List String) : List String :=
  List.insertionSort
    (fun a b => strLe (priorityKey ranked a) (priorityKey ranked b) = true) models

/-- The ordering the spec asserts for `get_model_list`'s output: ranked
entries first in rank order, then unranked entries in lexicographic
order. -/
def specOrder (ranked : List String) (x y : String) : Prop :=
  match rankOf ranked x, rankOf ranked y with
  | some i, some j => i ≤ j
  | some _, none => True
  | none, some _ => False
  | none, none => strLe x y = true

/-- A sequence of successful deltas: `text` and `ans_model` payloads of
chunks whose `error_code` is 0. -/
def goodChunks (ds : List (String × Option String)) : List StreamItem :=
  ds.map fun p => StreamItem.chunk p.1 0 p.2

/-- Whether a model name begins with a character whose code point exceeds
that of the sentinel prefix character 95 — names starting with a lowercase
letter do; names starting with a digit or an uppercase letter do not. -/
def headAboveUnderscore (m : String) : Bool :=
  match m.data with
  | [] => false
  | c :: _ => decide (95 < c.toNat)

/-! ### Fixtures used by witnesses and counterexamples -/

/-- A concrete instantiation of the configured constants, used to evaluate
the theorems on closed inputs. -/
def sampleConsts : Consts :=
  { CONVERSATION_TURN_LIMIT := 2
    INPUT_CHAR_LEN_LIMIT := 8
    MODERATION_MSG := "MOD"
    CONVERSATION_LIMIT_MSG := "LIMIT"
    RATE_LIMIT_MSG := "RATE"
    SERVER_ERROR_MSG := "ERR"
    GRADIO_REQUEST_ERROR := 50002
    GRADIO_STREAM_UNKNOWN_ERROR := 50003 }

/-- A fresh conversation template. -/
def convStart : Conv :=
  { systemMessage := ""
    roles := ("user", "assistant")
    offset := 0
    messages := [] }

/-- A conversation with one user turn awaiting its assistant answer. -/
def convReady : Conv :=
  { convStart with messages := [⟨"user", some "hello"⟩, ⟨"assistant", none⟩] }

/-- A conversation holding two completed turns — at `sampleConsts`'s limit. -/
def convTwoTurns : Conv :=
  { convStart with messages :=
      [⟨"user", some "hello"⟩, ⟨"assistant", some "hi"⟩,
       ⟨"user", some "more"⟩, ⟨"assistant", some "sure"⟩] }

/-- A session about to receive its first user turn. -/
def stFresh : State := State.create convStart "modelA"

/-- A session whose placeholder is pending generation. -/
def stReady : State := { stFresh with conv := convReady }

/-- A session that already holds `sampleConsts.CONVERSATION_TURN_LIMIT`
completed turns. -/
def stAtLimit : State := { stFresh with conv := convTwoTurns }

/-- A session on a browsing-class model, for which `regen_support` is
false. -/
def stBrowsing : State := { (State.create convStart "browsing-model") with conv := convReady }

/-! ### Helper lemmas about the conversation operations -/

theorem Conv.updateLastMessage_concat (c : Conv) (v : Option String)
    (l : List Message) (m : Message) (h : c.messages = l ++ [m]) :
    (c.updateLastMessage v).messages = l ++ [⟨m.role, v⟩] := by
  simp only [Conv.updateLastMessage, h, List.getLast?_concat, List.dropLast_concat]

theorem Conv.updateLastMessage_ne_nil (c : Conv) (v : Option String)
    (h : c.messages ≠ []) : (c.updateLastMessage v).messages ≠ [] := by
  rcases List.eq_nil_or_concat c.messages with h0 | ⟨l, m, hm⟩
  · exact absurd h0 h
  · rw [List.concat_eq_append] at hm
    rw [c.updateLastMessage_concat v l m hm]
    simp

theorem Conv.lastContent_updateLastMessage (c : Conv) (v : Option String)
    (h : c.messages ≠ []) : (c.updateLastMessage v).lastContent = some v := by
  rcases List.eq_nil_or_concat c.messages with h0 | ⟨l, m, hm⟩
  · exact absurd h0 h
  · rw [List.concat_eq_append] at hm
    simp only [Conv.lastContent, c.updateLastMessage_concat v l m hm,
      List.getLast?_concat, Option.map_some']

theorem Conv.length_updateLastMessage (c : Conv) (v : Option String)
    (h : c.messages ≠ []) :
    (c.updateLastMessage v).messages.length = c.messages.length := by
  rcases List.eq_nil_or_concat c.messages with h0 | ⟨l, m, hm⟩
  · exact absurd h0 h
  · rw [List.concat_eq_append] at hm
    rw [c.updateLastMessage_concat v l m hm, hm]
    simp

/-! ### Helper lemmas about the streaming loop -/

theorem streamLoop_skip_next (C : Consts) (st : State) (items : List StreamItem)
    (i : Nat) (lt : String) (y : Nat) :
    (streamLoop C st items i lt y).state.skip_next = st.skip_next := by
  induction items generalizing st i lt y with
  | nil => rfl
  | cons it rest ih =>
    cases it with
    | chunk text ec ansModel =>
      simp only [streamLoop]
      split
      · rw [ih]
        cases ansModel <;> split <;> rfl
      · cases ansModel <;> split <;> rfl
    | fail tport msg => rfl

theorem streamLoop_has_csam_image (C : Consts) (st : State) (items : List StreamItem)
    (i : Nat) (lt : String) (y : Nat) :
    (streamLoop C st items i lt y).state.has_csam_image = st.has_csam_image := by
  induction items generalizing st i lt y with
  | nil => rfl
  | cons it rest ih =>
    cases it with
    | chunk text ec ansModel =>
      simp only [streamLoop]
      split
      · rw [ih]
        cases ansModel <;> split <;> rfl
      · cases ansModel <;> split <;> rfl
    | fail tport msg => rfl

theorem streamLoop_ok_eq (C : Consts) (st : State) (items : List StreamItem)
    (i : Nat) (lt : String) (y : Nat) :
    (streamLoop C st items i lt y).ok = streamOk items := by
  induction items generalizing st i lt y with
  | nil => rfl
  | cons it rest ih =>
    cases it with
    | chunk text ec ansModel =>
      simp only [streamLoop, streamOk]
      split
      · rw [ih]
      · rfl
    | fail tport msg => rfl

theorem streamLoop_messages_ne_nil (C : Consts) (st : State) (items : List StreamItem)
    (i : Nat) (lt : String) (y : Nat) (h : st.conv.messages ≠ []) :
    (streamLoop C st items i lt y).state.conv.messages ≠ [] := by
  induction items generalizing st i lt y with
  | nil => exact st.conv.updateLastMessage_ne_nil _ h
  | cons it rest ih =>
    cases it with
    | chunk text ec ansModel =>
      simp only [streamLoop]
      split
      · apply ih
        cases ansModel <;> split <;> exact st.conv.updateLastMessage_ne_nil _ h
      · cases ansModel <;> split <;> exact st.conv.updateLastMessage_ne_nil _ h
    | fail tport msg => exact st.conv.updateLastMessage_ne_nil _ h

theorem streamLoop_stops_at_fail (C : Consts) (st : State) (chunks : List StreamItem)
    (tport : Bool) (e : String) (rest : List StreamItem) (i : Nat) (lt : String) (y : Nat) :
    streamLoop C st (chunks ++ StreamItem.fail tport e :: rest) i lt y
      = streamLoop C st (chunks ++ [StreamItem.fail tport e]) i lt y := by
  induction chunks generalizing st i lt y with
  | nil => rfl
  | cons it cs ih =>
    cases it with
    | chunk text ec ansModel =>
      simp only [List.cons_append, streamLoop]
      split
      · exact ih _ _ _ _
      · rfl
    | fail t m => rfl

theorem streamLoop_fail_lastContent (C : Consts) (st : State)
    (ds : List (String × Option String)) (e : String) (rest : List StreamItem)
    (i : Nat) (lt : String) (y : Nat) (hne : st.conv.messages ≠ []) :
    (streamLoop C st (goodChunks ds ++ StreamItem.fail true e :: rest) i lt y).state.conv.lastContent
      = some (some (C.SERVER_ERROR_MSG ++ "\n\n(error_code: "
          ++ toString C.GRADIO_REQUEST_ERROR ++ ", " ++ e ++ ")")) := by
  induction ds generalizing st i lt y with
  | nil =>
    simp only [goodChunks, List.map_nil, List.nil_append, streamLoop, if_pos]
    exact st.conv.lastContent_updateLastMessage _ hne
  | cons d ds ih =>
    simp only [goodChunks, List.map_cons, List.cons_append, streamLoop,
      beq_self_eq_true, if_true]
    split
    · apply ih
      rcases d with ⟨t, a⟩
      cases a <;> exact Conv.updateLastMessage_ne_nil _ _ hne
    · apply ih
      rcases d with ⟨t, a⟩
      cases a <;> exact Conv.updateLastMessage_ne_nil _ _ hne

theorem strTake_of_length_le (s : String) (n : Nat) (h : s.length ≤ n) :
    strTake s n = s := by
  have h' : s.data.length ≤ n := h
  simp only [strTake, List.take_of_length_le h']

/-- Appending a user turn followed by the assistant placeholder extends the
rendered prompt by exactly the labelled user text: the null-content
placeholder contributes nothing. -/
theorem Conv.getPrompt_append_turn (c : Conv) (t : String)
    (hoff : c.offset ≤ c.messages.length) :
    ((c.appendMessage c.roles.1 (some t)).appendMessage c.roles.2 none).getPrompt
      = c.getPrompt ++ "\n" ++ c.roles.1 ++ ": " ++ t := by
  simp only [Conv.appendMessage, Conv.getPrompt, List.append_assoc,
    List.cons_append, List.nil_append]
  rw [List.drop_append_of_le_length hoff, List.foldl_append]
  rfl

/-! ### Claim C1 -/

/-- Claim C1: on a session already holding at least
`CONVERSATION_TURN_LIMIT` completed turns (counted as
`(len(messages) - offset) / 2`), `add_text` returns the fixed
limit-reached message, sets `skip_next`, leaves the session otherwise
unchanged, and the subsequent `bot_response` contacts no backend under any
environment; on a session below the limit the turn is appended normally
(a user message followed by the assistant placeholder). -/
theorem add_text_turn_limit (C : Consts) (moderation : String → List String → Bool)
    (conv0 : Conv) (st : State) (sel text : String) (htext : 0 < text.length) :
    (C.CONVERSATION_TURN_LIMIT ≤ (st.conv.messages.length - st.conv.offset) / 2 →
      (add_text C moderation conv0 (some st) sel text).state = { st with skip_next := true } ∧
      (add_text C moderation conv0 (some st) sel text).textbox = C.CONVERSATION_LIMIT_MSG ∧
      ∀ arl rl api csp addr stream,
        (bot_response C arl rl api csp addr stream
          (add_text C moderation conv0 (some st) sel text).state).backendContacted = false) ∧
    ((st.conv.messages.length - st.conv.offset) / 2 < C.CONVERSATION_TURN_LIMIT →
      ∃ t, (add_text C moderation conv0 (some st) sel text).state
          = { st with conv := { st.conv with messages := st.conv.messages ++
              [⟨st.conv.roles.1, some t⟩, ⟨st.conv.roles.2, none⟩] } } ∧
        (add_text C moderation conv0 (some st) sel text).textbox = "") := by
  have h0 : ¬ (text.length ≤ 0) := by omega
  constructor
  · intro hlim
    refine ⟨?_, ?_, ?_⟩
    · simp [add_text, h0, hlim]
    · simp [add_text, h0, hlim]
    · intro arl rl api csp addr stream
      have hsk : (add_text C moderation conv0 (some st) sel text).state.skip_next = true := by
        simp [add_text, h0, hlim]
      simp [bot_response, hsk]
  · intro hlim
    have hnlim : ¬ (C.CONVERSATION_TURN_LIMIT ≤ (st.conv.messages.length - st.conv.offset) / 2) := by
      omega
    refine ⟨strTake (if moderation (strTakeLast st.conv.getPrompt 2000 ++ "\nuser: " ++ text)
        [st.model_name] then C.MODERATION_MSG else text) C.INPUT_CHAR_LEN_LIMIT, ?_, ?_⟩
    · simp [add_text, h0, hnlim, Conv.appendMessage]
    · simp [add_text, h0, hnlim]

/-- Claim C1 witness: at the concrete limit-reached session, `add_text`
returns the limit message. -/
theorem add_text_turn_limit_witness :
    (add_text sampleConsts (fun _ _ => false) convStart (some stAtLimit) "modelA" "hi").textbox
      = sampleConsts.CONVERSATION_LIMIT_MSG :=
  ((add_text_turn_limit sampleConsts (fun _ _ => false) convStart stAtLimit "modelA" "hi"
    (by decide)).1 (by decide)).2.1

/-! ### Claim C2 -/

/-- Claim C2: for non-empty input below the turn limit, when the moderation
predicate fires on the last 2000 characters of the rendered history
concatenated with the new turn, the stored user turn equals the fixed
moderation message (not the original text), and the call is not aborted:
`skip_next` is untouched and, when it was false, the following
`bot_response` still contacts the backend. -/
theorem add_text_moderation (C : Consts) (moderation : String → List String → Bool)
    (conv0 : Conv) (st : State) (sel text : String)
    (htext : 0 < text.length)
    (hflag : moderation (strTakeLast st.conv.getPrompt 2000 ++ "\nuser: " ++ text)
      [st.model_name] = true)
    (hlim : (st.conv.messages.length - st.conv.offset) / 2 < C.CONVERSATION_TURN_LIMIT)
    (hmsg : C.MODERATION_MSG.length ≤ C.INPUT_CHAR_LEN_LIMIT) :
    (add_text C moderation conv0 (some st) sel text).state.conv.messages
      = st.conv.messages ++ [⟨st.conv.roles.1, some C.MODERATION_MSG⟩,
          ⟨st.conv.roles.2, none⟩] ∧
    (add_text C moderation conv0 (some st) sel text).state.skip_next = st.skip_next ∧
    (st.skip_next = false → ∀ stream,
      (bot_response C false none true true "" stream
        (add_text C moderation conv0 (some st) sel text).state).backendContacted = true) := by
  have h0 : ¬ (text.length ≤ 0) := by omega
  have hnlim : ¬ (C.CONVERSATION_TURN_LIMIT ≤ (st.conv.messages.length - st.conv.offset) / 2) := by
    omega
  have hmain : (add_text C moderation conv0 (some st) sel text).state.conv.messages
      = st.conv.messages ++ [⟨st.conv.roles.1, some C.MODERATION_MSG⟩,
          ⟨st.conv.roles.2, none⟩] := by
    simp [add_text, h0, hnlim, hflag, Conv.appendMessage, strTake_of_length_le _ _ hmsg]
  have hsk : (add_text C moderation conv0 (some st) sel text).state.skip_next = st.skip_next := by
    simp [add_text, h0, hnlim]
  refine ⟨hmain, hsk, ?_⟩
  intro hfalse stream
  rw [hfalse] at hsk
  simp [bot_response, hsk, rateLimitHit]

/-- Claim C2 witness: on a concrete session with an always-firing moderation
predicate, the stored turn is the fixed moderation message. -/
theorem add_text_moderation_witness :
    (add_text sampleConsts (fun _ _ => true) convStart (some stFresh) "modelA"
        "bad input").state.conv.messages
      = stFresh.conv.messages ++ [⟨stFresh.conv.roles.1, some sampleConsts.MODERATION_MSG⟩,
          ⟨stFresh.conv.roles.2, none⟩] :=
  (add_text_moderation sampleConsts (fun _ _ => true) convStart stFresh "modelA" "bad input"
    (by decide) rfl (by decide) (by decide)).1

/-! ### Claim C9 -/

/-- Claim C9: for accepted input (non-empty, clean, below the turn limit):
below the character cutoff the stored turn equals the input exactly and the
rendered prompt round-trips it as a labelled suffix; at or above the cutoff
the stored content is exactly the first `INPUT_CHAR_LEN_LIMIT` characters. -/
theorem add_text_char_limit (C : Consts) (moderation : String → List String → Bool)
    (conv0 : Conv) (st : State) (sel text : String)
    (htext : 0 < text.length)
    (hclean : moderation (strTakeLast st.conv.getPrompt 2000 ++ "\nuser: " ++ text)
      [st.model_name] = false)
    (hlim : (st.conv.messages.length - st.conv.offset) / 2 < C.CONVERSATION_TURN_LIMIT)
    (hoff : st.conv.offset ≤ st.conv.messages.length) :
    (text.length < C.INPUT_CHAR_LEN_LIMIT →
      (add_text C moderation conv0 (some st) sel text).state.conv.messages
        = st.conv.messages ++ [⟨st.conv.roles.1, some text⟩, ⟨st.conv.roles.2, none⟩] ∧
      (add_text C moderation conv0 (some st) sel text).state.conv.getPrompt
        = st.conv.getPrompt ++ "\n" ++ st.conv.roles.1 ++ ": " ++ text) ∧
    (C.INPUT_CHAR_LEN_LIMIT ≤ text.length →
      (add_text C moderation conv0 (some st) sel text).state.conv.messages
        = st.conv.messages ++ [⟨st.conv.roles.1, some (strTake text C.INPUT_CHAR_LEN_LIMIT)⟩,
            ⟨st.conv.roles.2, none⟩] ∧
      (strTake text C.INPUT_CHAR_LEN_LIMIT).length = C.INPUT_CHAR_LEN_LIMIT) := by
  have h0 : ¬ (text.length ≤ 0) := by omega
  have hnlim : ¬ (C.CONVERSATION_TURN_LIMIT ≤ (st.conv.messages.length - st.conv.offset) / 2) := by
    omega
  constructor
  · intro hshort
    have htk : strTake text C.INPUT_CHAR_LEN_LIMIT = text :=
      strTake_of_length_le _ _ (Nat.le_of_lt hshort)
    constructor
    · simp [add_text, h0, hnlim, hclean, htk, Conv.appendMessage]
    · have hmsgs : (add_text C moderation conv0 (some st) sel text).state.conv
          = (st.conv.appendMessage st.conv.roles.1 (some text)).appendMessage
              st.conv.roles.2 none := by
        simp [add_text, h0, hnlim, hclean, htk]
      rw [hmsgs, st.conv.getPrompt_append_turn text hoff]
  · intro hlong
    constructor
    · simp [add_text, h0, hnlim, hclean, Conv.appendMessage]
    · have : (text.data.take C.INPUT_CHAR_LEN_LIMIT).length = C.INPUT_CHAR_LEN_LIMIT := by
        rw [List.length_take]
        exact Nat.min_eq_left hlong
      exact this

/-- Claim C9 witness: a concrete short input is stored verbatim and the
rendered prompt ends with the labelled turn. -/
theorem add_text_char_limit_witness :
    (add_text sampleConsts (fun _ _ => false) convStart (some stFresh) "modelA"
        "hi").state.conv.getPrompt
      = stFresh.conv.getPrompt ++ "\n" ++ stFresh.conv.roles.1 ++ ": " ++ "hi" :=
  ((add_text_char_limit sampleConsts (fun _ _ => false) convStart stFresh "modelA" "hi"
    (by decide) rfl (by decide) (by decide)).1 (by decide)).2

/-! ### Claim C10 -/

/-- Claim C10: `skip_next` is one-shot — when `bot_response` runs on a
session with `skip_next` set, it leaves the transcript unchanged, contacts
no backend, writes no record, emits a single update, and clears the flag,
so a following `bot_response` on the same session proceeds to the backend. -/
theorem bot_response_skip_one_shot (C : Consts) (arl : Bool)
    (rl : Option (Bool × String)) (api csp : Bool) (addr : String)
    (stream : List StreamItem) (st : State) (h : st.skip_next = true) :
    (bot_response C arl rl api csp addr stream st).state = { st with skip_next := false } ∧
    (bot_response C arl rl api csp addr stream st).backendContacted = false ∧
    (bot_response C arl rl api csp addr stream st).records = 0 ∧
    (bot_response C arl rl api csp addr stream st).yields = 1 ∧
    ∀ stream2, (bot_response C false none true true "" stream2
        { st with skip_next := false }).backendContacted = true := by
  refine ⟨?_, ?_, ?_, ?_, ?_⟩
  · simp [bot_response, h]
  · simp [bot_response, h]
  · simp [bot_response, h]
  · simp [bot_response, h]
  · intro stream2
    simp [bot_response, rateLimitHit]

/-- Claim C10 witness: on a concrete skipping session the generation is
suppressed exactly once. -/
theorem bot_response_skip_one_shot_witness :
    (bot_response sampleConsts true (some (true, "busy")) false false ""
        [] { stReady with skip_next := true }).backendContacted = false :=
  (bot_response_skip_one_shot sampleConsts true (some (true, "busy")) false false ""
    [] { stReady with skip_next := true } rfl).2.1

/-! ### Claim C5 -/

/-- Claim C5: dispatching a worker-backed model for which discovery returns
an empty address yields exactly one terminal update writing the fixed
server-error message into the placeholder, contacts no backend, and writes
no transcript record. -/
theorem bot_response_no_worker (C : Consts) (arl : Bool)
    (rl : Option (Bool × String)) (csp : Bool) (stream : List StreamItem) (st : State)
    (hskip : st.skip_next = false)
    (hrl : rateLimitHit arl rl = false)
    (hne : st.conv.messages ≠ []) :
    (bot_response C arl rl false csp "" stream st).yields = 1 ∧
    (bot_response C arl rl false csp "" stream st).backendContacted = false ∧
    (bot_response C arl rl false csp "" stream st).records = 0 ∧
    (bot_response C arl rl false csp "" stream st).state.conv.lastContent
      = some (some C.SERVER_ERROR_MSG) ∧
    (bot_response C arl rl false csp "" stream st).state.conv.messages.length
      = st.conv.messages.length := by
  refine ⟨?_, ?_, ?_, ?_, ?_⟩
  · simp [bot_response, hskip, hrl]
  · simp [bot_response, hskip, hrl]
  · simp [bot_response, hskip, hrl]
  · simp [bot_response, hskip, hrl]
    exact st.conv.lastContent_updateLastMessage _ hne
  · simp [bot_response, hskip, hrl]
    exact st.conv.length_updateLastMessage _ hne

/-- Claim C5 witness: a concrete worker-backed session with an empty
discovery answer receives the server-error message and no record. -/
theorem bot_response_no_worker_witness :
    (bot_response sampleConsts true none false false ""
        [.chunk "unused" 0 none] stReady).records = 0 ∧
    (bot_response sampleConsts true none false false ""
        [.chunk "unused" 0 none] stReady).state.conv.lastContent
      = some (some sampleConsts.SERVER_ERROR_MSG) := by
  have h := bot_response_no_worker sampleConsts true none false
    [.chunk "unused" 0 none] stReady rfl rfl (by decide)
  exact ⟨h.2.2.1, h.2.2.2.1⟩

/-! ### Claim C3 -/

/-- Claim C3 counterexample: a turn ending in a backend-reported error
(nonzero `error_code`) or a transport failure writes zero transcript
records, not one; only the successfully completed turn writes one. -/
theorem bot_response_error_no_record :
    (bot_response sampleConsts false none false false "http://h:1"
        [.chunk "boom" 1 none] stReady).records = 0 ∧
    (bot_response sampleConsts false none false false "http://h:1"
        [.fail true "reset"] stReady).records = 0 ∧
    (bot_response sampleConsts false none false false "http://h:1"
        [.chunk "fine" 0 none] stReady).records = 1 := by decide

/-- Claim C3 amended: a dispatched turn writes exactly one transcript record
iff its stream runs to exhaustion with every chunk reporting error code 0;
any error path (backend-reported nonzero error code, transport failure, or
other streaming exception) returns before the transcript-writing epilogue
and writes zero records. -/
theorem bot_response_records_iff_streamOk (C : Consts) (api csp : Bool)
    (addr : String) (stream : List StreamItem) (st : State)
    (hskip : st.skip_next = false)
    (haddr : (!api && (addr == "")) = false) :
    (bot_response C false none api csp addr stream st).records
      = if streamOk stream then 1 else 0 := by
  simp [bot_response, hskip, rateLimitHit, haddr, streamLoop_ok_eq]

/-- Claim C3 amended witness: evaluated on a concrete stream that dies with
an unknown streaming exception, no record is written. -/
theorem bot_response_records_iff_streamOk_witness :
    (bot_response sampleConsts false none false false "http://h:1"
        [.chunk "x" 0 none, .fail false "oops"] stReady).records
      = if streamOk [.chunk "x" 0 none, .fail false "oops"] then 1 else 0 :=
  bot_response_records_iff_streamOk sampleConsts false false "http://h:1"
    [.chunk "x" 0 none, .fail false "oops"] stReady rfl rfl

/-! ### Claim C4 -/

/-- Claim C4 counterexample: a turn whose text is classified unsafe by the
moderation predicate (which always fires here) leaves `has_csam_image`
false — text moderation does not set the unsafe-content flag. -/
theorem moderation_does_not_set_csam_flag :
    (add_text sampleConsts (fun _ _ => true) convStart (some stFresh) "modelA"
        "bad").state.has_csam_image = false ∧
    stFresh.has_csam_image = false := by decide

/-- Claim C4 amended: `has_csam_image` is initialized false and is left
unchanged by `add_text` (including turns the moderation predicate flags),
`regenerate`, and `bot_response`; it is trivially latched because nothing
in this file writes it at all (it concerns uploaded images and is set only
by the vision arena, outside this file). -/
theorem has_csam_image_constant (C : Consts) (moderation : String → List String → Bool)
    (conv0 : Conv) (st : State) (sel text : String)
    (arl : Bool) (rl : Option (Bool × String)) (api csp : Bool) (addr : String)
    (stream : List StreamItem) :
    (State.create conv0 sel).has_csam_image = false ∧
    (add_text C moderation conv0 (some st) sel text).state.has_csam_image
      = st.has_csam_image ∧
    (regenerate st).has_csam_image = st.has_csam_image ∧
    (bot_response C arl rl api csp addr stream st).state.has_csam_image
      = st.has_csam_image := by
  refine ⟨rfl, ?_, ?_, ?_⟩
  · by_cases h1 : text.length ≤ 0
    · simp [add_text, h1]
    · by_cases h2 : C.CONVERSATION_TURN_LIMIT
          ≤ (st.conv.messages.length - st.conv.offset) / 2
      · simp [add_text, h1, h2]
      · simp [add_text, h1, h2]
  · cases hr : st.regen_support <;> simp [regenerate, hr]
  · cases h1 : st.skip_next
    · cases h2 : rateLimitHit arl rl
      · cases h3 : (!api && (addr == ""))
        · cases h4 : (api && !csp) <;>
            simp [bot_response, h1, h2, h3, h4, streamLoop_has_csam_image]
        · simp [bot_response, h1, h2, h3]
      · simp [bot_response, h1, h2]
    · simp [bot_response, h1]

/-! ### Claim C6 -/

/-- Claim C6 counterexample: after deltas "Hi"/"Hi there" with error code 0
and a transport failure before any Done, the last message does not end as
"Hi there" with an annotation — it is the fixed server-error message with
the transport error code, and "Hi there" occurs nowhere in it. -/
theorem transport_failure_discards_text :
    (bot_response sampleConsts false none false false "http://h:1"
        [.chunk "Hi" 0 none, .chunk "Hi there" 0 none, .fail true "reset"]
        stReady).state.conv.lastContent
      = some (some "ERR\n\n(error_code: 50002, reset)") ∧
    containsSub "ERR\n\n(error_code: 50002, reset)" "Hi there" = false := by decide

theorem streamOk_goodChunks_fail (ds : List (String × Option String)) (t : Bool)
    (e : String) (rest : List StreamItem) :
    streamOk (goodChunks ds ++ StreamItem.fail t e :: rest) = false := by
  induction ds with
  | nil => rfl
  | cons d ds ih => simpa [goodChunks, streamOk] using ih

/-- Claim C6 amended: when the stream yields error-free deltas and the
connection then fails with a transport-level exception before any Done,
the last message is overwritten with the fixed server-error message
annotated with the distinct internal transport error code — the streamed
text is discarded, not kept — no events past the failure are consumed,
and no transcript record is written. -/
theorem bot_response_transport_failure (C : Consts) (api csp : Bool) (addr : String)
    (ds : List (String × Option String)) (e : String) (rest : List StreamItem)
    (st : State)
    (hskip : st.skip_next = false)
    (haddr : (!api && (addr == "")) = false)
    (hne : st.conv.messages ≠ []) :
    (bot_response C false none api csp addr
        (goodChunks ds ++ StreamItem.fail true e :: rest) st).state.conv.lastContent
      = some (some (C.SERVER_ERROR_MSG ++ "\n\n(error_code: "
          ++ toString C.GRADIO_REQUEST_ERROR ++ ", " ++ e ++ ")")) ∧
    bot_response C false none api csp addr
        (goodChunks ds ++ StreamItem.fail true e :: rest) st
      = bot_response C false none api csp addr (goodChunks ds ++ [StreamItem.fail true e]) st ∧
    (bot_response C false none api csp addr
        (goodChunks ds ++ StreamItem.fail true e :: rest) st).records = 0 := by
  refine ⟨?_, ?_, ?_⟩
  · cases h4 : (api && !csp) <;>
      · simp [bot_response, hskip, rateLimitHit, haddr, h4]
        apply streamLoop_fail_lastContent
        exact Conv.updateLastMessage_ne_nil _ _ hne
  · cases h4 : (api && !csp) <;>
      · simp [bot_response, hskip, rateLimitHit, haddr, h4]
        rw [streamLoop_stops_at_fail]
        exact ⟨rfl, rfl, rfl⟩
  · cases h4 : (api && !csp) <;>
      · simp [bot_response, hskip, rateLimitHit, haddr, h4, streamLoop_ok_eq,
          streamOk_goodChunks_fail]

/-- Claim C6 amended witness: the concrete "Hi"/"Hi there" stream followed
by a connection failure produces the annotated server-error message. -/
theorem bot_response_transport_failure_witness :
    (bot_response sampleConsts false none false false "http://h:1"
        (goodChunks [("Hi", none), ("Hi there", none)]
          ++ StreamItem.fail true "Connection aborted" :: []) stReady).state.conv.lastContent
      = some (some (sampleConsts.SERVER_ERROR_MSG ++ "\n\n(error_code: "
          ++ toString sampleConsts.GRADIO_REQUEST_ERROR ++ ", " ++ "Connection aborted" ++ ")")) :=
  (bot_response_transport_failure sampleConsts false false "http://h:1"
    [("Hi", none), ("Hi there", none)] "Connection aborted" [] stReady rfl rfl (by decide)).1

/-! ### Claim C7 -/

/-- Claim C7 counterexample: on a browsing-class session with `skip_next`
false, `regenerate` is not a no-op on the SessionState: it sets
`skip_next` to true. -/
theorem regenerate_not_noop :
    regenerate stBrowsing ≠ stBrowsing ∧
    (regenerate stBrowsing).skip_next = true ∧
    stBrowsing.skip_next = false := by decide

/-- Claim C7 amended: on a session without regeneration support,
`regenerate` leaves the conversation (hence the transcript content) and
every other field untouched and sets exactly `skip_next` to true, so the
next generation request is suppressed instead. -/
theorem regenerate_no_support (st : State) (h : st.regen_support = false) :
    regenerate st = { st with skip_next := true } := by
  simp [regenerate, h]

/-- Claim C7 amended witness: evaluated on the concrete browsing-class
session. -/
theorem regenerate_no_support_witness :
    regenerate stBrowsing = { stBrowsing with skip_next := true } :=
  regenerate_no_support stBrowsing (by decide)

/-! ### Claim C8: order lemmas for the priority-key sort -/

theorem charsLe_cons (a b : Char) (as bs : List Char) :
    charsLe (a :: as) (b :: bs)
      = if a.toNat < b.toNat then true
        else if b.toNat < a.toNat then false
        else charsLe as bs := rfl

theorem charsLe_cons_same (a : Char) (as bs : List Char) :
    charsLe (a :: as) (a :: bs) = charsLe as bs := by
  rw [charsLe_cons, if_neg (by omega), if_neg (by omega)]

theorem charsLe_head_lt_false (a b : Char) (as bs : List Char)
    (h : b.toNat < a.toNat) : charsLe (a :: as) (b :: bs) = false := by
  rw [charsLe_cons, if_neg (by omega), if_pos h]

theorem charsLe_total (as bs : List Char) :
    charsLe as bs = true ∨ charsLe bs as = true := by
  induction as generalizing bs with
  | nil => left; rfl
  | cons a as ih =>
    cases bs with
    | nil => right; rfl
    | cons b bs =>
      rcases Nat.lt_trichotomy a.toNat b.toNat with h | h | h
      · left; rw [charsLe_cons, if_pos h]
      · rw [charsLe_cons, charsLe_cons, if_neg (by omega), if_neg (by omega),
          if_neg (by omega), if_neg (by omega)]
        exact ih bs
      · right; rw [charsLe_cons, if_pos h]

theorem charsLe_trans (as : List Char) : ∀ (bs cs : List Char), charsLe as bs = true →
    charsLe bs cs = true → charsLe as cs = true := by
  induction as with
  | nil => intro bs cs h1 h2; rfl
  | cons a as ih =>
    intro bs cs h1 h2
    cases bs with
    | nil => exact absurd h1 (by simp [charsLe])
    | cons b bs =>
      cases cs with
      | nil => exact absurd h2 (by simp [charsLe])
      | cons c cs =>
        rw [charsLe_cons] at h1 h2
        rw [charsLe_cons]
        rcases Nat.lt_trichotomy a.toNat b.toNat with hab | hab | hab <;>
          rcases Nat.lt_trichotomy b.toNat c.toNat with hbc | hbc | hbc
        · rw [if_pos (by omega)]
        · rw [if_pos (by omega)]
        · rw [if_neg (by omega), if_pos hbc] at h2
          exact absurd h2 (by simp)
        · rw [if_pos (by omega)]
        · rw [if_neg (by omega), if_neg (by omega)] at h1
          rw [if_neg (by omega), if_neg (by omega)] at h2
          rw [if_neg (by omega), if_neg (by omega)]
          exact ih bs cs h1 h2
        · rw [if_neg (by omega), if_pos hbc] at h2
          exact absurd h2 (by simp)
        · rw [if_neg (by omega), if_pos hab] at h1
          exact absurd h1 (by simp)
        · rw [if_neg (by omega), if_pos hab] at h1
          exact absurd h1 (by simp)
        · rw [if_neg (by omega), if_pos hab] at h1
          exact absurd h1 (by simp)

theorem toDigitsCore_of_lt10 (fuel n : Nat) (ds : List Char) (h : n < 10) :
    Nat.toDigitsCore 10 (fuel + 1) n ds = Nat.digitChar n :: ds := by
  have h1 : n % 10 = n := Nat.mod_eq_of_lt h
  have h2 : n / 10 = 0 := Nat.div_eq_of_lt h
  simp [Nat.toDigitsCore, h1, h2]

theorem toDigitsCore_of_ge10 (fuel n : Nat) (ds : List Char) (h : 10 ≤ n) :
    Nat.toDigitsCore 10 (fuel + 1) n ds
      = Nat.toDigitsCore 10 fuel (n / 10) (Nat.digitChar (n % 10) :: ds) := by
  have h2 : ¬ (n / 10 = 0) := by omega
  simp [Nat.toDigitsCore, h2]

theorem repr_data_lt10 (n : Nat) (h : n < 10) :
    (Nat.repr n).data = [Nat.digitChar n] := by
  show (Nat.toDigitsCore 10 (n + 1) n []) = _
  rw [toDigitsCore_of_lt10 _ _ _ h]

theorem repr_data_ge10_lt100 (n : Nat) (h1 : 10 ≤ n) (h2 : n < 100) :
    (Nat.repr n).data = [Nat.digitChar (n / 10), Nat.digitChar (n % 10)] := by
  obtain ⟨m, rfl⟩ : ∃ m, n = m + 1 := ⟨n - 1, by omega⟩
  show (Nat.toDigitsCore 10 (m + 1 + 1) (m + 1) []) = _
  rw [toDigitsCore_of_ge10 _ _ _ h1, toDigitsCore_of_lt10 _ _ _ (by omega)]

theorem repr_data_ge100_lt1000 (n : Nat) (h1 : 100 ≤ n) (h2 : n < 1000) :
    (Nat.repr n).data = [Nat.digitChar (n / 100), Nat.digitChar (n / 10 % 10),
      Nat.digitChar (n % 10)] := by
  obtain ⟨m, rfl⟩ : ∃ m, n = m + 2 := ⟨n - 2, by omega⟩
  show (Nat.toDigitsCore 10 (m + 2 + 1) (m + 2) []) = _
  rw [toDigitsCore_of_ge10 _ _ _ (by omega), toDigitsCore_of_ge10 _ _ _ (by omega),
    toDigitsCore_of_lt10 _ _ _ (by omega)]
  have e1 : (m + 2) / 10 / 10 = (m + 2) / 100 := by omega
  rw [e1]

theorem pad3_data (n : Nat) (h : n < 1000) :
    (pad3 n).data = [Nat.digitChar (n / 100), Nat.digitChar (n / 10 % 10),
      Nat.digitChar (n % 10)] := by
  rcases Nat.lt_or_ge n 10 with h1 | h1
  · have e1 : n / 100 = 0 := by omega
    have e2 : n / 10 % 10 = 0 := by omega
    have e3 : n % 10 = n := by omega
    rw [e1, e2, e3]
    show (List.replicate (3 - (Nat.repr n).data.length) '0' ++ (Nat.repr n).data) = _
    rw [repr_data_lt10 n h1]
    rfl
  · rcases Nat.lt_or_ge n 100 with h2 | h2
    · have e1 : n / 100 = 0 := by omega
      have e2 : n / 10 % 10 = n / 10 := by omega
      rw [e1, e2]
      show (List.replicate (3 - (Nat.repr n).data.length) '0' ++ (Nat.repr n).data) = _
      rw [repr_data_ge10_lt100 n h1 h2]
      rfl
    · show (List.replicate (3 - (Nat.repr n).data.length) '0' ++ (Nat.repr n).data) = _
      rw [repr_data_ge100_lt1000 n h2 h]
      rfl

theorem digitChar_mono : ∀ a < 10, ∀ b < 10, a < b →
    (Nat.digitChar a).toNat < (Nat.digitChar b).toNat := by decide

theorem charsLe_pad3_false (i j : Nat) (hij : j < i) (hi : i < 1000) :
    charsLe (pad3 i).data (pad3 j).data = false := by
  have hj : j < 1000 := by omega
  rw [pad3_data i hi, pad3_data j hj]
  rcases (show j / 100 < i / 100 ∨ (j / 100 = i / 100 ∧ (j / 10 % 10 < i / 10 % 10
      ∨ (j / 10 % 10 = i / 10 % 10 ∧ j % 10 < i % 10))) by omega)
    with h | ⟨e1, h | ⟨e2, h⟩⟩
  · exact charsLe_head_lt_false _ _ _ _
      (digitChar_mono _ (by omega) _ (by omega) h)
  · rw [e1, charsLe_cons_same]
    exact charsLe_head_lt_false _ _ _ _
      (digitChar_mono _ (by omega) _ (by omega) h)
  · rw [e1, e2, charsLe_cons_same, charsLe_cons_same]
    exact charsLe_head_lt_false _ _ _ _
      (digitChar_mono _ (by omega) _ (by omega) h)

theorem rankOf_lt_length (ranked : List String) (x : String) (i : Nat)
    (h : rankOf ranked x = some i) : i < ranked.length := by
  rw [rankOf, List.findIdx?_eq_some_iff_findIdx_eq] at h
  exact h.1

theorem priorityKey_ranked (ranked : List String) (x : String) (i : Nat)
    (h : rankOf ranked x = some i) :
    (priorityKey ranked x).data = '_' :: '_' :: '_' :: (pad3 i).data := by
  simp only [priorityKey, h]
  rw [String.data_append]
  rfl

theorem priorityKey_unranked (ranked : List String) (x : String)
    (h : rankOf ranked x = none) : priorityKey ranked x = x := by
  simp [priorityKey, h]

theorem key_ranked_ranked_false (ranked : List String) (x y : String) (i j : Nat)
    (hx : rankOf ranked x = some i) (hy : rankOf ranked y = some j)
    (hij : j < i) (hi : i < 1000) :
    strLe (priorityKey ranked x) (priorityKey ranked y) = false := by
  rw [strLe, priorityKey_ranked _ _ _ hx, priorityKey_ranked _ _ _ hy,
    charsLe_cons_same, charsLe_cons_same, charsLe_cons_same]
  exact charsLe_pad3_false i j hij hi

theorem key_unranked_ranked_false (ranked : List String) (x y : String) (j : Nat)
    (c : Char) (cs : List Char)
    (hx : rankOf ranked x = none) (hy : rankOf ranked y = some j)
    (hdata : x.data = c :: cs) (hc : '_'.toNat < c.toNat) :
    strLe (priorityKey ranked x) (priorityKey ranked y) = false := by
  rw [strLe, priorityKey_unranked _ _ hx, priorityKey_ranked _ _ _ hy, hdata]
  exact charsLe_head_lt_false _ _ _ _ hc

theorem headAboveUnderscore_spec (m : String) (h : headAboveUnderscore m = true) :
    ∃ c cs, m.data = c :: cs ∧ '_'.toNat < c.toNat := by
  rcases hd : m.data with _ | ⟨c, cs⟩
  · rw [headAboveUnderscore, hd] at h
    cases h
  · refine ⟨c, cs, rfl, ?_⟩
    rw [headAboveUnderscore, hd] at h
    simpa using h

/-! ### Claim C8 -/

/-- Claim C8 counterexample: with a one-entry priority table, the unranked
model "AAA" sorts before the ranked model, because capital letters precede
the underscore of the sentinel keys in code-point order. -/
theorem unranked_before_ranked :
    sortModels ["modelA"] ["modelA", "AAA"] = ["AAA", "modelA"] ∧
    rankOf ["modelA"] "AAA" = none ∧
    rankOf ["modelA"] "modelA" = some 0 := by decide

/-- Claim C8 amended: the sorted model list is a permutation of the input
ordered by the priority key, and — provided the curated table has at most
1000 entries and every unranked name begins with a character above the
underscore code point (e.g. a lowercase letter) — ranked models appear in
table rank order before all unranked models, and unranked models appear in
code-point lexicographic order (the `specOrder` relation).  Without the
proviso an unranked name starting with a digit or uppercase letter sorts
before the ranked sentinel keys. -/
theorem sortModels_ordered (ranked models : List String)
    (hlen : ranked.length ≤ 1000)
    (hun : ∀ m ∈ models, rankOf ranked m = none → headAboveUnderscore m = true) :
    (sortModels ranked models).Perm models ∧
    List.Pairwise (specOrder ranked) (sortModels ranked models) := by
  have hperm := List.perm_insertionSort
    (fun a b => strLe (priorityKey ranked a) (priorityKey ranked b) = true) models
  refine ⟨hperm, ?_⟩
  haveI : IsTotal String
      (fun a b => strLe (priorityKey ranked a) (priorityKey ranked b) = true) := by
    constructor
    intro a b
    exact charsLe_total (priorityKey ranked a).data (priorityKey ranked b).data
  haveI : IsTrans String
      (fun a b => strLe (priorityKey ranked a) (priorityKey ranked b) = true) := by
    constructor
    intro a b c h1 h2
    exact charsLe_trans _ _ _ h1 h2
  have hsorted := List.sorted_insertionSort
    (fun a b => strLe (priorityKey ranked a) (priorityKey ranked b) = true) models
  refine List.Pairwise.imp_of_mem ?_ hsorted
  intro a b ha hb hr
  have ha' : a ∈ models := hperm.mem_iff.mp ha
  have hb' : b ∈ models := hperm.mem_iff.mp hb
  rcases hra : rankOf ranked a with _ | i <;> rcases hrb : rankOf ranked b with _ | j
  · simp only [specOrder, hra, hrb]
    rw [priorityKey_unranked _ _ hra, priorityKey_unranked _ _ hrb] at hr
    exact hr
  · obtain ⟨c, cs, hdata, hc⟩ := headAboveUnderscore_spec a (hun a ha' hra)
    have hF := key_unranked_ranked_false ranked a b j c cs hra hrb hdata hc
    rw [hF] at hr
    cases hr
  · simp only [specOrder, hra, hrb]
  · simp only [specOrder, hra, hrb]
    by_contra hij
    have hi : i < 1000 := lt_of_lt_of_le (rankOf_lt_length _ _ _ hra) hlen
    have hF := key_ranked_ranked_false ranked a b i j hra hrb (by omega) hi
    rw [hF] at hr
    cases hr

/-- Claim C8 amended witness: a concrete two-entry table with lowercase
unranked names sorts ranked-first in rank order, unranked after in
lexicographic order. -/
theorem sortModels_ordered_witness :
    (sortModels ["modelA", "modelB"] ["zeta", "modelB", "alpha", "modelA"]).Perm
        ["zeta", "modelB", "alpha", "modelA"] ∧
    List.Pairwise (specOrder ["modelA", "modelB"])
      (sortModels ["modelA", "modelB"] ["zeta", "modelB", "alpha", "modelA"]) :=
  sortModels_ordered ["modelA", "modelB"] ["zeta", "modelB", "alpha", "modelA"]
    (by decide) (by decide)

end GradioWebServer
